import Mathlib

/-!
Verification of the search-result relevance and cross-index matching pipeline
of the two Azure-function search modules (azure-html-search/function_app.py and
azure-pdf-search/function_app.py).  Python strings are modelled as `List Char`
(ASCII level), machine reals used only for the 0.5 similarity threshold are
modelled exactly over `ℚ`, and the external search-index client is modelled as
a pure function.  Every definition is a direct translation of the source
function of the same name; a handful of clearly-marked auxiliary definitions
model Python string primitives (`str.find`, `str.replace`, `urllib.parse.unquote`,
the regular-expression substitutions) at the character level.
-/

/-- Model of a Python `str` as a list of characters (ASCII level). -/
abbrev PyStr := List Char

/-- Convert a Lean string literal into the character-list model. -/
def pys (s : String) : PyStr := s.toList

/-- The apostrophe character (used when assembling OData filter clauses). -/
def apos : Char := Char.ofNat 39

/-- Python `str.lower()` over the ASCII range. -/
def toLowerStr (s : PyStr) : PyStr := s.map Char.toLower

/-- Python whitespace class (`str.split()` / `str.strip()` / regex `\s`), ASCII part. -/
def pyIsSpace (c : Char) : Bool :=
  c = ' ' || c = '\t' || c = '\n' || c = '\r' || c = Char.ofNat 11 || c = Char.ofNat 12

/-- Helper for `wsSplit`: accumulates the current word (reversed). -/
def wsSplitAux (cur : PyStr) : PyStr → List PyStr
  | [] => if cur = [] then [] else [cur.reverse]
  | c :: rest =>
    if pyIsSpace c then
      if cur = [] then wsSplitAux [] rest else cur.reverse :: wsSplitAux [] rest
    else wsSplitAux (c :: cur) rest

/-- Python `str.split()` with no argument: split on whitespace runs, dropping empties. -/
def wsSplit (s : PyStr) : List PyStr := wsSplitAux [] s

/-- Python `' '.join(...)`. -/
def joinSpace (ws : List PyStr) : PyStr := List.intercalate [' '] ws

/-- Python `str.strip()` (whitespace from both ends). -/
def pyStrip (s : PyStr) : PyStr :=
  ((s.dropWhile pyIsSpace).reverse.dropWhile pyIsSpace).reverse

/-- Helper for `pyFind`: first index `≥ i` (in the original string) at which
`pat` occurs in `s`, scanning left to right exactly like Python `str.find`. -/
def pyFindAux (s pat : PyStr) (i : Nat) : Option Nat :=
  if pat.isPrefixOf s then some i
  else
    match s with
    | [] => none
    | _ :: rest => pyFindAux rest pat (i + 1)

/-- Python `s.find(pat)`: index of the leftmost occurrence (`none` models `-1`). -/
def pyFind (s pat : PyStr) : Option Nat := pyFindAux s pat 0

/-- Python `pat in s` (substring containment). -/
def pyContains (s pat : PyStr) : Bool := (pyFind s pat).isSome

/-- Hexadecimal digit test, as accepted by `urllib.parse.unquote`. -/
def isHexDigit (c : Char) : Bool :=
  c.isDigit || ('a' ≤ c && c ≤ 'f') || ('A' ≤ c && c ≤ 'F')

/-- Value of a hexadecimal digit. -/
def hexVal (c : Char) : Nat :=
  if c.isDigit then c.toNat - 48
  else if 'a' ≤ c && c ≤ 'f' then c.toNat - 87
  else c.toNat - 55

/-- Model of `urllib.parse.unquote`: every valid `%hh` escape becomes the byte
`hh`; invalid escapes are left as-is.  Multi-byte UTF-8 escapes decode to the
corresponding byte characters, which is observationally equivalent downstream
of the alphanumeric-only normalizations used by this program. -/
def pyUnquote : PyStr → PyStr
  | [] => []
  | '%' :: a :: b :: rest =>
    if isHexDigit a && isHexDigit b then
      Char.ofNat (16 * hexVal a + hexVal b) :: pyUnquote rest
    else '%' :: pyUnquote (a :: b :: rest)
  | c :: rest => c :: pyUnquote rest

/-- Fuel-indexed worker for `pyReplace`; the fuel is the length of the string,
so the `0` arm is never reached on a nonempty remainder. -/
def pyReplaceAux : Nat → PyStr → PyStr → PyStr → PyStr
  | _, [], _, _ => []
  | 0, s, _, _ => s
  | fuel + 1, c :: rest, pat, rep =>
    if pat ≠ [] ∧ pat.isPrefixOf (c :: rest) then
      rep ++ pyReplaceAux fuel ((c :: rest).drop pat.length) pat rep
    else c :: pyReplaceAux fuel rest pat rep

/-- Python `s.replace(pat, rep)` for a nonempty `pat`: replaces every
non-overlapping occurrence, scanning left to right. -/
def pyReplace (s pat rep : PyStr) : PyStr := pyReplaceAux s.length s pat rep

/-- Helper for `collapseRuns`: `inRun` records whether the previous character
already belonged to a run being collapsed. -/
def collapseRunsAux (p : Char → Bool) (rep : Char) (inRun : Bool) : PyStr → PyStr
  | [] => []
  | c :: rest =>
    if p c then
      if inRun then collapseRunsAux p rep true rest
      else rep :: collapseRunsAux p rep true rest
    else c :: collapseRunsAux p rep false rest

/-- Model of `re.sub(cls+, rep, s)` for a single-character class: every maximal
run of characters satisfying `p` is replaced by the single character `rep`. -/
def collapseRuns (p : Char → Bool) (rep : Char) (s : PyStr) : PyStr :=
  collapseRunsAux p rep false s

/-- Fuel-indexed worker for `stripTags`. -/
def stripTagsAux : Nat → PyStr → PyStr
  | _, [] => []
  | 0, s => s
  | fuel + 1, c :: rest =>
    if c = '<' then
      match List.findIdx? (fun d => d = '>') rest with
      | some 0 => c :: stripTagsAux fuel rest
      | some (g + 1) => ' ' :: stripTagsAux fuel (rest.drop (g + 2))
      | none => c :: stripTagsAux fuel rest
    else c :: stripTagsAux fuel rest

/-- Model of `re.sub(r'<[^>]+>', ' ', s)`: each HTML-tag-shaped span (a `<`,
one or more non-`>` characters, then `>`) is replaced by a single space. -/
def stripTags (s : PyStr) : PyStr := stripTagsAux s.length s

/-- Fuel-indexed worker for `removeBlocks`. -/
def removeBlocksAux (tag : PyStr) : Nat → PyStr → PyStr
  | _, [] => []
  | 0, s => s
  | fuel + 1, c :: rest =>
    if (toLowerStr ('<' :: tag)).isPrefixOf (toLowerStr (c :: rest)) then
      match List.findIdx? (fun d => d = '>') ((c :: rest).drop (1 + tag.length)) with
      | none => c :: removeBlocksAux tag fuel rest
      | some g =>
        match pyFind (toLowerStr (((c :: rest).drop (1 + tag.length)).drop (g + 1)))
            (toLowerStr ('<' :: '/' :: (tag ++ [Char.ofNat 62]))) with
        | none => c :: removeBlocksAux tag fuel rest
        | some j =>
          ' ' :: removeBlocksAux tag fuel
            (((((c :: rest).drop (1 + tag.length)).drop (g + 1)).drop j).drop (tag.length + 3))
    else c :: removeBlocksAux tag fuel rest

/-- Model of `re.sub(r'<TAG[^>]*>.*?</TAG>', ' ', s, flags=DOTALL|IGNORECASE)`:
a case-insensitive `<TAG`, then any non-`>` characters and a `>`, then the
shortest span up to a case-insensitive `</TAG>`, all replaced by one space. -/
def removeBlocks (tag : PyStr) (s : PyStr) : PyStr := removeBlocksAux tag s.length s

/-- Python `s.split(sep)` for a single-character separator (keeps empties). -/
def splitOnChar (sep : Char) : PyStr → List PyStr
  | [] => [[]]
  | c :: rest =>
    if c = sep then [] :: splitOnChar sep rest
    else
      match splitOnChar sep rest with
      | [] => [[c]]
      | w :: ws => (c :: w) :: ws

/-! ### Context extraction (azure-html-search and azure-pdf-search variants) -/

/-- Cleaning stage of the HTML-module `get_search_context` (lines 62-70):
remove nav/header/footer/menu blocks, strip remaining tags, collapse whitespace. -/
def clean_html_text (text : PyStr) : PyStr :=
  let t := removeBlocks (pys ("nav")) text
  let t := removeBlocks (pys ("header")) t
  let t := removeBlocks (pys ("footer")) t
  let t := removeBlocks (pys ("menu")) t
  joinSpace (wsSplit (stripTags t))

/-- Cleaning stage of the PDF-module `get_search_context` (lines 18-19):
strip tags, collapse whitespace (no block removal in this module). -/
def clean_pdf_text (text : PyStr) : PyStr :=
  joinSpace (wsSplit (stripTags text))

/-- The HTML module's fallback word scan (lines 83-88): the first word of the
query longer than 3 characters that occurs in the lowered clean text. -/
def first_long_word_hit (tl : PyStr) : List PyStr → Option Nat
  | [] => none
  | w :: ws =>
    if 3 < w.length then
      match pyFind tl w with
      | some p => some p
      | none => first_long_word_hit tl ws
    else first_long_word_hit tl ws

/-- The PDF module's term scan (lines 24-29): the first whitespace-separated
word of the query (of any length) that occurs in the lowered clean text. -/
def first_term_hit (tl : PyStr) : List PyStr → Option Nat
  | [] => none
  | w :: ws =>
    match pyFind tl w with
    | some p => some p
    | none => first_term_hit tl ws

/-- The snippet-window construction shared by both variants (start/stop clamp,
strip, ellipses).  Natural-number subtraction models `max(0, position - w)`. -/
def context_window (clean_text : PyStr) (position qlen context_chars : Nat) : PyStr :=
  let start := position - context_chars
  let stop := min clean_text.length (position + qlen + context_chars)
  let snippet := pyStrip ((clean_text.drop start).take (stop - start))
  let snippet := if 0 < start then pys ("...") ++ snippet else snippet
  if stop < clean_text.length then snippet ++ pys ("...") else snippet

/-- `get_search_context` of azure-html-search/function_app.py (lines 44-108). -/
def get_search_context (text search_text : PyStr) (context_chars : Nat := 150) : PyStr :=
  if text.isEmpty || search_text.isEmpty then []
  else
    match (match pyFind (toLowerStr (clean_html_text text)) (toLowerStr search_text) with
      | some p => some p
      | none => first_long_word_hit (toLowerStr (clean_html_text text))
          (wsSplit (toLowerStr search_text))) with
    | none => []
    | some p => context_window (clean_html_text text) p search_text.length context_chars

/-- `get_search_context` of azure-pdf-search/function_app.py (lines 12-44):
scans individual query words (no whole-phrase pass, no word-length filter) and
falls back to the first 500 characters plus an ellipsis.  The window adds no
query length to its upper end (line 35). -/
def pdf_get_search_context (text search_text : PyStr) (context_chars : Nat := 300) : PyStr :=
  if text.isEmpty || search_text.isEmpty then []
  else
    match first_term_hit (toLowerStr (clean_pdf_text text)) (wsSplit (toLowerStr search_text)) with
    | none => (clean_pdf_text text).take 500 ++ pys ("...")
    | some p => context_window (clean_pdf_text text) p 0 context_chars

/-! ### Text normalizers and the filename matcher (azure-html-search) -/

/-- ASCII letter-or-digit test (regex class `[a-zA-Z0-9]`). -/
def pyIsAlnumAscii (c : Char) : Bool :=
  ('a' ≤ c && c ≤ 'z') || ('A' ≤ c && c ≤ 'Z') || ('0' ≤ c && c ≤ '9')

/-- Lower-case letter-or-digit test (regex class `[a-z0-9]`). -/
def isLowerAlnum (c : Char) : Bool :=
  ('a' ≤ c && c ≤ 'z') || ('0' ≤ c && c ≤ '9')

/-- `normalize_string` of azure-html-search/function_app.py (lines 299-309):
replace each character outside `[a-zA-Z0-9\s]` with a space, collapse `\s+`
runs to one space, strip, lower-case. -/
def normalize_string (s : PyStr) : PyStr :=
  toLowerStr (pyStrip (collapseRuns pyIsSpace ' '
    (s.map (fun c => if pyIsAlnumAscii c || pyIsSpace c then c else ' '))))

/-- The literal pattern `.pdf`. -/
def pdf_ext : PyStr := pys (".pdf")

/-- `normalize_for_comparison` of azure-html-search/function_app.py
(lines 360-392): double URL-decode, `text.replace('.pdf', '')` (which removes
every occurrence of the literal, case-sensitive `.pdf`), lower-case, replace
`[^a-z0-9]+` runs with a space, collapse and strip. -/
def normalize_for_comparison (text : PyStr) : PyStr :=
  let t := pyUnquote (pyUnquote text)
  let t := pyReplace t pdf_ext []
  let t := toLowerStr t
  let t := collapseRuns (fun c => !(isLowerAlnum c)) ' ' t
  pyStrip (joinSpace (wsSplit t))

/-- The set of significant terms of a normalized name: whitespace-separated
tokens longer than 3 characters (a Python `set`, so duplicates collapse). -/
def significant_terms (s : PyStr) : Finset PyStr :=
  ((wsSplit s).filter (fun t => 3 < t.length)).toFinset

/-- `check_filename_match` of azure-html-search/function_app.py (lines
394-432).  The float comparison `len(common)/total >= 0.5` is modelled exactly
over `ℚ` (exact for every set size this code can see). -/
def check_filename_match (primary_filename secondary_filename : PyStr) : Bool :=
  let primary_terms := significant_terms (normalize_for_comparison primary_filename)
  let secondary_terms := significant_terms (normalize_for_comparison secondary_filename)
  let common_terms := primary_terms ∩ secondary_terms
  let total_terms := (primary_terms ∪ secondary_terms).card
  if total_terms = 0 then false
  else decide (((common_terms.card : ℚ) / (total_terms : ℚ)) ≥ (1 : ℚ) / 2)

/-! ### Filter builder (azure-html-search, lines 121-220) -/

/-- The request shape parsed by `search_function` (lines 441-460).  Multi-shape
fields (`str` or `list`) are a sum; an absent JSON key is `none`. -/
structure SearchRequest where
  search_text : PyStr
  programs : Option (PyStr ⊕ List PyStr) := none
  ages_studied : Option (PyStr ⊕ List PyStr) := none
  focus_population : Option PyStr := none
  domain : Option PyStr := none
  subdomain_1 : Option PyStr := none
  subdomain_2 : Option PyStr := none
  subdomain_3 : Option PyStr := none
  resource_type : Option PyStr := none
  topic : Option PyStr := none
  year : Option PyStr := none
  Status : Option PyStr := none
  CFDA_number : Option PyStr := none
  summary : Option PyStr := none
  title : Option PyStr := none
  published_date : Option PyStr := none
  changed_date : Option PyStr := none
deriving DecidableEq

/-- Python truthiness of an optional string field (`None` and `''` are falsy). -/
def pyTruthyOptStr : Option PyStr → Bool
  | none => false
  | some s => !s.isEmpty

/-- Python truthiness of a str-or-list field (`None`, `''` and `[]` are falsy). -/
def pyTruthyMulti : Option (PyStr ⊕ List PyStr) → Bool
  | none => false
  | some (Sum.inl s) => !s.isEmpty
  | some (Sum.inr l) => !l.isEmpty

/-- `ensure_list` (lines 121-126): wrap a scalar in a one-element list. -/
def ensure_list : Option (PyStr ⊕ List PyStr) → Option (List PyStr)
  | none => none
  | some (Sum.inl s) => some [s]
  | some (Sum.inr l) => some l

/-- Single-quote a value, as the f-strings do. -/
def squote (v : PyStr) : PyStr := apos :: (v ++ [apos])

/-- One `field/any(x: x eq '<value>')` clause. -/
def any_clause (field varname v : PyStr) : PyStr :=
  field ++ pys ("/any(") ++ varname ++ pys (": ") ++ varname ++ pys (" eq ") ++ squote v ++ pys (")")

/-- One `field eq '<value>'` clause. -/
def eq_clause (field v : PyStr) : PyStr := field ++ pys (" eq ") ++ squote v

/-- `" or ".join(...)`. -/
def or_join (cs : List PyStr) : PyStr := List.intercalate (pys (" or ")) cs

/-- Wrap in parentheses. -/
def parens (s : PyStr) : PyStr := pys ("(") ++ s ++ pys (")")

/-- `filters.append(x)` guarded by a truthiness test. -/
def appendIf (b : Bool) (x : PyStr) (l : List PyStr) : List PyStr :=
  if b then l ++ [x] else l

/-- The programs clause (lines 152-156). -/
def programs_clause (r : SearchRequest) : PyStr :=
  parens (or_join (((ensure_list r.programs).getD []).map
    (fun prog => any_clause (pys ("programs")) (pys ("p")) prog)))

/-- The ages_studied clause (lines 158-162). -/
def ages_studied_clause (r : SearchRequest) : PyStr :=
  parens (or_join (((ensure_list r.ages_studied).getD []).map
    (fun age => any_clause (pys ("ages_studied")) (pys ("a")) age)))

/-- The focus_population clause (lines 164-167). -/
def focus_population_clause (r : SearchRequest) : PyStr :=
  parens (any_clause (pys ("focus_population")) (pys ("f")) (r.focus_population.getD []))

/-- The scalar equality clauses (lines 169-216).  `build_filter_string` emits
no clause for `summary`, although the request carries one. -/
def domain_clause (r : SearchRequest) : PyStr := eq_clause (pys ("domain")) (r.domain.getD [])

/-- Scalar clause for subdomain_1. -/
def subdomain_1_clause (r : SearchRequest) : PyStr :=
  eq_clause (pys ("subdomain_1")) (r.subdomain_1.getD [])

/-- Scalar clause for subdomain_2. -/
def subdomain_2_clause (r : SearchRequest) : PyStr :=
  eq_clause (pys ("subdomain_2")) (r.subdomain_2.getD [])

/-- Scalar clause for subdomain_3. -/
def subdomain_3_clause (r : SearchRequest) : PyStr :=
  eq_clause (pys ("subdomain_3")) (r.subdomain_3.getD [])

/-- Scalar clause for resource_type. -/
def resource_type_clause (r : SearchRequest) : PyStr :=
  eq_clause (pys ("resource_type")) (r.resource_type.getD [])

/-- Scalar clause for topic. -/
def topic_clause (r : SearchRequest) : PyStr := eq_clause (pys ("topic")) (r.topic.getD [])

/-- Scalar clause for year. -/
def year_clause (r : SearchRequest) : PyStr := eq_clause (pys ("year")) (r.year.getD [])

/-- Scalar clause for Status. -/
def status_clause (r : SearchRequest) : PyStr := eq_clause (pys ("Status")) (r.Status.getD [])

/-- Scalar clause for CFDA_number. -/
def cfda_clause (r : SearchRequest) : PyStr :=
  eq_clause (pys ("CFDA_number")) (r.CFDA_number.getD [])

/-- Scalar clause for title. -/
def title_clause (r : SearchRequest) : PyStr := eq_clause (pys ("title")) (r.title.getD [])

/-- Scalar clause for published_date. -/
def published_date_clause (r : SearchRequest) : PyStr :=
  eq_clause (pys ("published_date")) (r.published_date.getD [])

/-- Scalar clause for changed_date. -/
def changed_date_clause (r : SearchRequest) : PyStr :=
  eq_clause (pys ("changed_date")) (r.changed_date.getD [])

/-- The `filters` list accumulated by `build_filter_string` (lines 149-216),
one guarded append per handled field, in source order.  There is no append for
`summary`. -/
def filters_list (r : SearchRequest) : List PyStr :=
  let filters : List PyStr := []
  let filters := appendIf (pyTruthyMulti r.programs) (programs_clause r) filters
  let filters := appendIf (pyTruthyMulti r.ages_studied) (ages_studied_clause r) filters
  let filters := appendIf (pyTruthyOptStr r.focus_population) (focus_population_clause r) filters
  let filters := appendIf (pyTruthyOptStr r.domain) (domain_clause r) filters
  let filters := appendIf (pyTruthyOptStr r.subdomain_1) (subdomain_1_clause r) filters
  let filters := appendIf (pyTruthyOptStr r.subdomain_2) (subdomain_2_clause r) filters
  let filters := appendIf (pyTruthyOptStr r.subdomain_3) (subdomain_3_clause r) filters
  let filters := appendIf (pyTruthyOptStr r.resource_type) (resource_type_clause r) filters
  let filters := appendIf (pyTruthyOptStr r.topic) (topic_clause r) filters
  let filters := appendIf (pyTruthyOptStr r.year) (year_clause r) filters
  let filters := appendIf (pyTruthyOptStr r.Status) (status_clause r) filters
  let filters := appendIf (pyTruthyOptStr r.CFDA_number) (cfda_clause r) filters
  let filters := appendIf (pyTruthyOptStr r.title) (title_clause r) filters
  let filters := appendIf (pyTruthyOptStr r.published_date) (published_date_clause r) filters
  let filters := appendIf (pyTruthyOptStr r.changed_date) (changed_date_clause r) filters
  filters

/-- `build_filter_string` (lines 149-220): join the accumulated clauses with
`" and "`, or return `None` when no clause was emitted. -/
def build_filter_string (r : SearchRequest) : Option PyStr :=
  if (filters_list r).isEmpty then none
  else some (List.intercalate (pys (" and ")) (filters_list r))

/-- Specification-side clause list: one clause per present (truthy) handled
field, in source order, written as a flat list of guarded singletons. -/
def expected_clauses (r : SearchRequest) : List PyStr :=
  List.flatten
    [ if pyTruthyMulti r.programs then [programs_clause r] else [],
      if pyTruthyMulti r.ages_studied then [ages_studied_clause r] else [],
      if pyTruthyOptStr r.focus_population then [focus_population_clause r] else [],
      if pyTruthyOptStr r.domain then [domain_clause r] else [],
      if pyTruthyOptStr r.subdomain_1 then [subdomain_1_clause r] else [],
      if pyTruthyOptStr r.subdomain_2 then [subdomain_2_clause r] else [],
      if pyTruthyOptStr r.subdomain_3 then [subdomain_3_clause r] else [],
      if pyTruthyOptStr r.resource_type then [resource_type_clause r] else [],
      if pyTruthyOptStr r.topic then [topic_clause r] else [],
      if pyTruthyOptStr r.year then [year_clause r] else [],
      if pyTruthyOptStr r.Status then [status_clause r] else [],
      if pyTruthyOptStr r.CFDA_number then [cfda_clause r] else [],
      if pyTruthyOptStr r.title then [title_clause r] else [],
      if pyTruthyOptStr r.published_date then [published_date_clause r] else [],
      if pyTruthyOptStr r.changed_date then [changed_date_clause r] else [] ]

/-- Truthiness disjunction over the fields `build_filter_string` handles
(everything in the request except `search_text` and `summary`). -/
def any_present (r : SearchRequest) : Bool :=
  pyTruthyMulti r.programs || pyTruthyMulti r.ages_studied ||
  pyTruthyOptStr r.focus_population || pyTruthyOptStr r.domain ||
  pyTruthyOptStr r.subdomain_1 || pyTruthyOptStr r.subdomain_2 ||
  pyTruthyOptStr r.subdomain_3 || pyTruthyOptStr r.resource_type ||
  pyTruthyOptStr r.topic || pyTruthyOptStr r.year || pyTruthyOptStr r.Status ||
  pyTruthyOptStr r.CFDA_number || pyTruthyOptStr r.title ||
  pyTruthyOptStr r.published_date || pyTruthyOptStr r.changed_date

/-! ### Search orchestration (Result Fuser) -/

/-- A record of the PDF index, and also the per-result payload built by
`search_single_index` (content, file_name, url, id; the html module also
carries `@search.score`, the pdf module simply omits it from its payload). -/
structure PdfIndexHit where
  content : PyStr := []
  file_name : PyStr := []
  url : PyStr := []
  id : PyStr := []
  score : ℚ := 0
deriving DecidableEq

/-- The blob-store URL head rewritten by both `search_single_index` variants. -/
def blob_store_head : PyStr :=
  pys ("https://americorpevidencestore.blob.core.windows.net/evidencefiles/")

/-- The public-site URL head substituted for `blob_store_head`. -/
def public_site_head : PyStr :=
  pys ("https://americorps.gov/sites/default/files/evidenceexchange/")

/-- The URL transformation of `search_single_index` (html module lines
260-265, pdf module lines 73-78): a `startswith` guard followed by Python
`str.replace`, which substitutes every occurrence of the old substring. -/
def transform_url (url : PyStr) : PyStr :=
  if blob_store_head.isPrefixOf url then pyReplace url blob_store_head public_site_head
  else url

/-- Stable descending insertion by `@search.score` (models Python
`sorted(..., key=score, reverse=True)`, which is stable). -/
def insert_desc (x : PdfIndexHit) : List PdfIndexHit → List PdfIndexHit
  | [] => [x]
  | y :: rest => if y.score ≤ x.score then x :: y :: rest else y :: insert_desc x rest

/-- Sort a hit list by score, descending, stably. -/
def sort_by_score_desc (l : List PdfIndexHit) : List PdfIndexHit :=
  l.foldr insert_desc []

/-- `search_single_index` of azure-html-search/function_app.py (lines
233-279) over a pure index model `search_client : query text → top → hits`:
snippet each hit's content (default window 150), rewrite its URL, keep id and
score, and order by score descending.  The `index_name` parameter is only
logged in the source and is omitted here. -/
def search_single_index (search_text : PyStr)
    (search_client : PyStr → Nat → List PdfIndexHit) (max_results : Nat) :
    List PdfIndexHit :=
  let response := search_client search_text max_results
  let results := response.map (fun r =>
    { content := get_search_context (r.content) search_text
      file_name := r.file_name
      url := transform_url r.url
      id := r.id
      score := r.score })
  sort_by_score_desc results

/-- `search_single_index` of azure-pdf-search/function_app.py (lines 46-91):
same shape, but the pdf-module snippet function (default window 300) and no
sort; the payload carries no score. -/
def pdf_search_single_index (search_text : PyStr)
    (search_client : PyStr → Nat → List PdfIndexHit) (max_results : Nat) :
    List PdfIndexHit :=
  (search_client search_text max_results).map (fun r =>
    { content := pdf_get_search_context (r.content) search_text
      file_name := r.file_name
      url := transform_url r.url
      id := r.id })

/-- `get_first_n_lines` (lines 35-42). -/
def get_first_n_lines (text : PyStr) (n : Nat := 1) : PyStr :=
  if text.isEmpty then []
  else pyStrip (List.intercalate ['\n'] ((splitOnChar '\n' text).take n))

/-- `get_first_url` (lines 110-119): `None`/empty is no URL; a list yields its
head; a string yields the segment before the first `;` (possibly empty). -/
def get_first_url : Option (PyStr ⊕ List PyStr) → Option PyStr
  | none => none
  | some (Sum.inl s) => if s.isEmpty then none else (splitOnChar ';' s).head?
  | some (Sum.inr l) => if l.isEmpty then none else l.head?

/-- The two policy-document name fragments excluded from `pdf_urls`. -/
def excluded_pdfs : List PyStr :=
  [pys ("Whistleblower_Rights_Employees_OGC"),
   pys ("Whistleblower_Rights_and_Remedies_Contractors_Grantees_OGC")]

/-- `filter_pdf_urls` (lines 329-342): drop any URL containing either
excluded fragment. -/
def filter_pdf_urls (pdf_urls : List PyStr) : List PyStr :=
  if pdf_urls.isEmpty then []
  else pdf_urls.filter (fun url => !(excluded_pdfs.any (fun ex => pyContains url ex)))

/-- Python `url.split('/')[-1]`. -/
def last_path_segment (url : PyStr) : PyStr := (splitOnChar '/' url).getLastD []

/-- Python `s.rsplit('.', 1)[0]`: everything before the last dot, or the whole
string when there is no dot. -/
def rsplit_dot_stem (s : PyStr) : PyStr :=
  if s.contains '.' then (((s.reverse).dropWhile (fun c => c ≠ '.')).drop 1).reverse
  else s

/-- The document record selected from the HTML index (lines 479-500). -/
structure PrimaryHit where
  content : PyStr := []
  embedded_urls : Option (PyStr ⊕ List PyStr) := none
  programs : List PyStr := []
  ages_studied : List PyStr := []
  focus_population : List PyStr := []
  domain : PyStr := []
  subdomain_1 : PyStr := []
  subdomain_2 : PyStr := []
  subdomain_3 : PyStr := []
  resource_type : PyStr := []
  pdf_urls : List PyStr := []
  title : PyStr := []
  topic : PyStr := []
  year : PyStr := []
  Status : PyStr := []
  CFDA_number : PyStr := []
  summary : PyStr := []
  published_date : PyStr := []
  changed_date : PyStr := []
deriving DecidableEq

/-- The `filtered_result` dictionary built per HTML hit (lines 523-545);
`pdf_content` is `none` until a cross-reference match attaches it. -/
structure FilteredResult where
  content : PyStr
  url : Option PyStr
  title : PyStr
  programs : List PyStr
  ages_studied : List PyStr
  focus_population : List PyStr
  domain : PyStr
  subdomain_1 : PyStr
  subdomain_2 : PyStr
  subdomain_3 : PyStr
  resource_type : PyStr
  pdf_urls : List PyStr
  found_in_pdf : PyStr
  topic : PyStr
  year : PyStr
  Status : PyStr
  CFDA_number : PyStr
  summary : PyStr
  published_date : PyStr
  changed_date : PyStr
  pdf_content : Option PyStr
deriving DecidableEq

/-- The tri-state marker value for an HTML-only result. -/
def found_only_html : PyStr := pys ("Found only in HTML")

/-- The tri-state marker value for a result matched in the PDF index. -/
def found_both : PyStr := pys ("Found in both HTML and PDF")

/-- The tri-state marker value recorded when cross-referencing raises. -/
def error_checking_pdf : PyStr := pys ("Error checking PDF")

/-- Inner loop of the cross-reference step (lines 574-589): first secondary
hit with a nonempty `file_name` whose basename (before the last dot, lowered)
equals the primary basename under `normalize_string`; yields its content. -/
def find_pdf_match (primary_basename : PyStr) : List PdfIndexHit → Option PyStr
  | [] => none
  | sec :: rest =>
    if sec.file_name.isEmpty then find_pdf_match primary_basename rest
    else if normalize_string primary_basename =
        normalize_string (toLowerStr (rsplit_dot_stem sec.file_name)) then
      some sec.content
    else find_pdf_match primary_basename rest

/-- Outer loop of the cross-reference step (lines 562-592): for each candidate
PDF URL, double-unquote its last path segment, take the lowered basename, and
stop at the first URL with a secondary match. -/
def cross_reference (secondary_results : List PdfIndexHit) : List PyStr →
    PyStr × Option PyStr
  | [] => (found_only_html, none)
  | url :: rest =>
    if url.isEmpty then cross_reference secondary_results rest
    else
      let primary_filename := pyUnquote (pyUnquote (last_path_segment url))
      let primary_basename := toLowerStr (rsplit_dot_stem primary_filename)
      match find_pdf_match primary_basename secondary_results with
      | some pdf_content => (found_both, some pdf_content)
      | none => cross_reference secondary_results rest

/-- The body of the cross-reference `try` block (lines 549-592), applied to a
result's already-filtered PDF URL list (`filtered_result['pdf_urls'][:2]`). -/
def cross_ref_body (secondary_results : List PdfIndexHit) (pdf_urls : List PyStr) :
    PyStr × Option PyStr :=
  cross_reference secondary_results (pdf_urls.take 2)

/-- The cross-reference sub-step as the handler sees it: a computation that
either produces a marker/content pair or fails with an exception message. -/
abbrev CrossStep := List PyStr → Except PyStr (PyStr × Option PyStr)

/-- The `filtered_result` construction (lines 523-545): snippet or first line,
first embedded URL, copied metadata, policy-filtered PDF URLs, and the
initial `"Found only in HTML"` marker. -/
def process_result (search_text : PyStr) (hit : PrimaryHit) : FilteredResult :=
  { content := if !search_text.isEmpty then get_search_context (hit.content) search_text
               else get_first_n_lines (hit.content)
    url := get_first_url hit.embedded_urls
    title := hit.title
    programs := hit.programs
    ages_studied := hit.ages_studied
    focus_population := hit.focus_population
    domain := hit.domain
    subdomain_1 := hit.subdomain_1
    subdomain_2 := hit.subdomain_2
    subdomain_3 := hit.subdomain_3
    resource_type := hit.resource_type
    pdf_urls := filter_pdf_urls hit.pdf_urls
    found_in_pdf := found_only_html
    topic := hit.topic
    year := hit.year
    Status := hit.Status
    CFDA_number := hit.CFDA_number
    summary := hit.summary
    published_date := hit.published_date
    changed_date := hit.changed_date
    pdf_content := none }

/-- One iteration of the result loop (lines 521-600): build the filtered
result and, for the first 10 hits of a non-empty text search, run the
cross-reference sub-step under its `try/except` — a failing sub-step sets
`found_in_pdf = "Error checking PDF"` and the loop carries on (lines 598-600). -/
def apply_cross_step (search_text : PyStr) (idx : Nat) (hit : PrimaryHit)
    (sub_step : CrossStep) : FilteredResult :=
  if idx < 10 ∧ search_text ≠ [] then
    match sub_step (process_result search_text hit).pdf_urls with
    | Except.ok (status, pdf_content) =>
      { process_result search_text hit with
          found_in_pdf := status, pdf_content := pdf_content }
    | Except.error _ =>
      { process_result search_text hit with found_in_pdf := error_checking_pdf }
  else process_result search_text hit

/-- The inclusion test (lines 602-606), Python truthiness of
`content or url or pdf_urls`. -/
def result_truthy (fr : FilteredResult) : Bool :=
  !fr.content.isEmpty || pyTruthyOptStr fr.url || !fr.pdf_urls.isEmpty

/-- The `search_results` list (lines 520-610): every primary hit is processed
in order, and a result is appended exactly when the inclusion test passes. -/
def search_results_list (search_text : PyStr) (primary : List PrimaryHit)
    (sub_steps : Nat → CrossStep) : List FilteredResult :=
  ((primary.enum).map (fun p => apply_cross_step search_text p.1 p.2 (sub_steps p.1))).filter
    result_truthy

/-! ### Response assembly (lines 612-654) -/

/-- A JSON value in the `applied_filters` echo: `null`, a string, or a list. -/
inductive JVal where
  | null : JVal
  | str : PyStr → JVal
  | arr : List PyStr → JVal
deriving DecidableEq

/-- Encode a str-or-list request field for the echo. -/
def jval_of_multi : Option (PyStr ⊕ List PyStr) → JVal
  | none => JVal.null
  | some (Sum.inl s) => JVal.str s
  | some (Sum.inr l) => JVal.arr l

/-- Encode an optional string request field for the echo. -/
def jval_of_str : Option PyStr → JVal
  | none => JVal.null
  | some s => JVal.str s

/-- The `applied_filters` object of the 200 response (lines 615-631), in
source order.  The source echoes fifteen keys; `resource_type` is not among
them. -/
def applied_filters_payload (r : SearchRequest) : List (PyStr × JVal) :=
  [ (pys ("programs"), jval_of_multi r.programs),
    (pys ("ages_studied"), jval_of_multi r.ages_studied),
    (pys ("focus_population"), jval_of_str r.focus_population),
    (pys ("domain"), jval_of_str r.domain),
    (pys ("subdomain_1"), jval_of_str r.subdomain_1),
    (pys ("subdomain_2"), jval_of_str r.subdomain_2),
    (pys ("subdomain_3"), jval_of_str r.subdomain_3),
    (pys ("topic"), jval_of_str r.topic),
    (pys ("year"), jval_of_str r.year),
    (pys ("Status"), jval_of_str r.Status),
    (pys ("CFDA_number"), jval_of_str r.CFDA_number),
    (pys ("summary"), jval_of_str r.summary),
    (pys ("title"), jval_of_str r.title),
    (pys ("published_date"), jval_of_str r.published_date),
    (pys ("changed_date"), jval_of_str r.changed_date) ]

/-- The filter keys of the request shape (C6's enumeration). -/
inductive FilterKey where
  | programs | ages_studied | focus_population | domain
  | subdomain_1 | subdomain_2 | subdomain_3 | resource_type
  | topic | year | Status | CFDA_number | summary | title
  | published_date | changed_date
deriving DecidableEq

/-- The JSON name of a filter key. -/
def key_name : FilterKey → PyStr
  | FilterKey.programs => pys ("programs")
  | FilterKey.ages_studied => pys ("ages_studied")
  | FilterKey.focus_population => pys ("focus_population")
  | FilterKey.domain => pys ("domain")
  | FilterKey.subdomain_1 => pys ("subdomain_1")
  | FilterKey.subdomain_2 => pys ("subdomain_2")
  | FilterKey.subdomain_3 => pys ("subdomain_3")
  | FilterKey.resource_type => pys ("resource_type")
  | FilterKey.topic => pys ("topic")
  | FilterKey.year => pys ("year")
  | FilterKey.Status => pys ("Status")
  | FilterKey.CFDA_number => pys ("CFDA_number")
  | FilterKey.summary => pys ("summary")
  | FilterKey.title => pys ("title")
  | FilterKey.published_date => pys ("published_date")
  | FilterKey.changed_date => pys ("changed_date")

/-- The requested value of a filter key (null when the field was absent). -/
def requested_value (r : SearchRequest) : FilterKey → JVal
  | FilterKey.programs => jval_of_multi r.programs
  | FilterKey.ages_studied => jval_of_multi r.ages_studied
  | FilterKey.focus_population => jval_of_str r.focus_population
  | FilterKey.domain => jval_of_str r.domain
  | FilterKey.subdomain_1 => jval_of_str r.subdomain_1
  | FilterKey.subdomain_2 => jval_of_str r.subdomain_2
  | FilterKey.subdomain_3 => jval_of_str r.subdomain_3
  | FilterKey.resource_type => jval_of_str r.resource_type
  | FilterKey.topic => jval_of_str r.topic
  | FilterKey.year => jval_of_str r.year
  | FilterKey.Status => jval_of_str r.Status
  | FilterKey.CFDA_number => jval_of_str r.CFDA_number
  | FilterKey.summary => jval_of_str r.summary
  | FilterKey.title => jval_of_str r.title
  | FilterKey.published_date => jval_of_str r.published_date
  | FilterKey.changed_date => jval_of_str r.changed_date

/-- The 200 response body (lines 612-641): results, the applied-filter echo,
and `total_count` only when `search_text` was non-empty. -/
structure ResponseData where
  results : List FilteredResult
  applied_filters : List (PyStr × JVal)
  total_count : Option Nat
deriving DecidableEq

/-- Assemble the 200 response body from the processed results. -/
def search_response (r : SearchRequest) (primary : List PrimaryHit)
    (sub_steps : Nat → CrossStep) : ResponseData :=
  let rs := search_results_list r.search_text primary sub_steps
  { results := rs
    applied_filters := applied_filters_payload r
    total_count := if r.search_text ≠ [] then some rs.length else none }

/-- The HTTP outcome of the handler: a 200 with a body, or a 500 with an
error payload (the top-level `except`, lines 643-654). -/
inductive HttpOutcome where
  | success : ResponseData → Nat → HttpOutcome
  | failure : PyStr → Nat → HttpOutcome
deriving DecidableEq

/-- `search_function` (lines 436-654) after request parsing, over a pure
primary result list and the abstract cross-reference sub-steps: every
cross-referencing failure is consumed inside the per-result handler, so the
handler always returns the 200 response. -/
def search_function_model (r : SearchRequest) (primary : List PrimaryHit)
    (sub_steps : Nat → CrossStep) : HttpOutcome :=
  HttpOutcome.success (search_response r primary sub_steps) 200

/-- The reference pipeline (C9): the secondary (PDF) index query is re-issued
inside the result loop for every cross-referenced hit, with the same
`search_text` and `top = 10` each time (lines 548-556); the pre-loop top-20
query (lines 504-517) is bound but never read afterwards. -/
def search_response_ref (idx_query : PyStr → Nat → List PdfIndexHit)
    (r : SearchRequest) (primary : List PrimaryHit) : ResponseData :=
  let _secondary_initial :=
    if r.search_text ≠ [] then search_single_index (r.search_text) idx_query 20 else []
  search_response r primary
    (fun _ urls =>
      Except.ok (cross_ref_body (search_single_index (r.search_text) idx_query 10) urls))

/-- Modelled from the spec: the optimized pipeline of §4.5/§9 that issues the
secondary query once per request, caches it, and reuses the cached result for
every HTML hit. -/
def search_response_hoisted (idx_query : PyStr → Nat → List PdfIndexHit)
    (r : SearchRequest) (primary : List PrimaryHit) : ResponseData :=
  let cached := search_single_index (r.search_text) idx_query 10
  search_response r primary (fun _ urls => Except.ok (cross_ref_body cached urls))

/-! ### Concrete example inputs used by witnesses and counterexamples -/

/-- A request whose only filter field is `summary`. -/
def req_summary_only : SearchRequest :=
  { search_text := [], summary := some (pys ("impact")) }

/-- A request with a two-valued `programs` filter (the spec's own example). -/
def req_programs_two : SearchRequest :=
  { search_text := [],
    programs := some (Sum.inr [pys ("AmeriCorps VISTA"), pys ("AmeriCorps NCCC")]) }

/-- A request carrying a `resource_type` filter. -/
def req_resource_type : SearchRequest :=
  { search_text := pys ("x"), resource_type := some (pys ("Report")) }

/-- A request with the one-character search text `x`. -/
def req_x : SearchRequest := { search_text := pys ("x") }

/-- An HTML hit with a PDF URL and no content. -/
def hit_pdf_only : PrimaryHit := { pdf_urls := [pys ("https://a.org/b/Doc.pdf")] }

/-- An HTML hit whose content contains the letter `x`. -/
def hit_with_x : PrimaryHit := { content := pys ("x marks the spot") }

/-- A cross-reference sub-step that always raises. -/
def sub_steps_fail : Nat → CrossStep := fun _ _ => Except.error (pys ("boom"))

/-- A cross-reference sub-step that always completes without a match. -/
def sub_steps_ok : Nat → CrossStep := fun _ _ => Except.ok (found_only_html, none)

/-! ### Helper lemmas -/

/-- `appendIf` is an append of a guarded singleton. -/
theorem appendIf_eq (b : Bool) (x : PyStr) (l : List PyStr) :
    appendIf b x l = l ++ (if b then [x] else []) := by
  cases b <;> simp [appendIf]

/-- The accumulated filter list is the flat list of guarded clauses. -/
theorem filters_list_eq (r : SearchRequest) : filters_list r = expected_clauses r := by
  simp only [filters_list, expected_clauses, appendIf_eq, List.flatten_cons,
    List.flatten_nil, List.append_assoc, List.nil_append, List.append_nil]

/-- The clause list is empty exactly when no handled field is truthy. -/
theorem expected_clauses_eq_nil_iff (r : SearchRequest) :
    expected_clauses r = [] ↔ any_present r = false := by
  simp only [expected_clauses, any_present, List.flatten_cons, List.flatten_nil,
    List.append_nil, List.append_eq_nil, Bool.or_eq_false_iff]
  constructor
  · intro h
    rcases h with ⟨h1, h2, h3, h4, h5, h6, h7, h8, h9, h10, h11, h12, h13, h14, h15⟩
    refine ⟨⟨⟨⟨⟨⟨⟨⟨⟨⟨⟨⟨⟨⟨?_, ?_⟩, ?_⟩, ?_⟩, ?_⟩, ?_⟩, ?_⟩, ?_⟩, ?_⟩, ?_⟩, ?_⟩, ?_⟩, ?_⟩, ?_⟩, ?_⟩ <;>
      simp_all only [ite_eq_right_iff, List.cons_ne_nil, imp_false, Bool.not_eq_true]
  · intro h
    rcases h with ⟨⟨⟨⟨⟨⟨⟨⟨⟨⟨⟨⟨⟨⟨h1, h2⟩, h3⟩, h4⟩, h5⟩, h6⟩, h7⟩, h8⟩, h9⟩, h10⟩, h11⟩, h12⟩, h13⟩, h14⟩, h15⟩
    simp_all

/-! ### Claim C3 — filter clause construction -/

/-- Claim C3 (amended): `build_filter_string` emits exactly one clause for
each present (truthy) field it handles — every request filter field except
`summary`, which it silently ignores — joined with `" and "`, and returns
`None` exactly when no handled field is present.  Each multi-valued clause is
a parenthesized `field/any(x: x eq '<value>')` disjunction and each scalar
clause is `field eq '<value>'`, per the clause definitions used on both sides. -/
theorem C3_build_filter_characterization (r : SearchRequest) :
    (build_filter_string r = none ↔ any_present r = false)
    ∧ (∀ s, build_filter_string r = some s →
        s = List.intercalate (pys (" and ")) (expected_clauses r))
    ∧ build_filter_string { r with summary := none } = build_filter_string r := by
  refine ⟨?_, ?_, ?_⟩
  · rw [build_filter_string]
    by_cases h : (filters_list r).isEmpty
    · simp only [h, if_true, true_iff]
      rw [List.isEmpty_iff, filters_list_eq, expected_clauses_eq_nil_iff] at h
      simp [h]
    · simp only [h, if_false]
      rw [List.isEmpty_iff, filters_list_eq, expected_clauses_eq_nil_iff] at h
      simp [h]
  · intro s hs
    rw [build_filter_string] at hs
    by_cases h : (filters_list r).isEmpty
    · simp [h] at hs
    · simp only [h, Bool.false_eq_true, if_false, Option.some.injEq] at hs
      rw [← hs, filters_list_eq]
  · rfl

/-- Counterexample to claim C3 as stated: a request whose only present filter
field is `summary` produces no filter at all (`build_filter_string` has no
branch for `summary`), while the claim requires a `summary` equality clause. -/
theorem C3_counterexample :
    build_filter_string req_summary_only = none
    ∧ pyTruthyOptStr req_summary_only.summary = true := by
  constructor
  · rfl
  · rfl

/-- Witness for C3: on the spec's own two-program example the theorem yields
the concrete joined clause list. -/
theorem C3_witness :
    build_filter_string req_programs_two =
      some (List.intercalate (pys (" and ")) (expected_clauses req_programs_two)) := by
  cases hb : build_filter_string req_programs_two with
  | none =>
    exact absurd ((C3_build_filter_characterization req_programs_two).1.mp hb) (by decide)
  | some s =>
    rw [(C3_build_filter_characterization req_programs_two).2.1 s hb]

/-! ### Claim C6 — applied-filter echo -/

/-- Claim C6 (amended): the 200 response's `applied_filters` object contains
every filter key of the request shape except `resource_type` — programs,
ages_studied, focus_population, domain, subdomain_1..3, topic, year, Status,
CFDA_number, summary, title, published_date, changed_date — each mapped to
the requested value (null when the field was absent from the request);
`resource_type` is not echoed at all. -/
theorem C6_applied_filters_echo (r : SearchRequest) :
    (∀ fk : FilterKey, fk ≠ FilterKey.resource_type →
      (key_name fk, requested_value r fk) ∈ applied_filters_payload r)
    ∧ key_name FilterKey.resource_type ∉ (applied_filters_payload r).map Prod.fst := by
  constructor
  · intro fk h
    cases fk
    case resource_type => exact absurd rfl h
    all_goals simp [applied_filters_payload, key_name, requested_value]
  · simp only [applied_filters_payload, List.map_cons, List.map_nil]
    decide

/-- Counterexample to claim C6 as stated: a request that does supply
`resource_type` gets a response echo without a `resource_type` key. -/
theorem C6_counterexample :
    key_name FilterKey.resource_type ∉
        (applied_filters_payload req_resource_type).map Prod.fst
    ∧ req_resource_type.resource_type = some (pys ("Report")) := by
  constructor
  · decide
  · rfl

/-- Witness for C6: the `domain` key of a concrete request is echoed with its
requested value. -/
theorem C6_witness :
    (key_name FilterKey.domain, requested_value req_resource_type FilterKey.domain) ∈
      applied_filters_payload req_resource_type :=
  (C6_applied_filters_echo req_resource_type).1 FilterKey.domain (by decide)

/-! ### Claim C9 — hoisting the in-loop secondary query -/

/-- Claim C9: with the Search Index modelled as a pure function, the reference
pipeline that re-issues the secondary (PDF) index query inside the
cross-reference loop equals the optimized pipeline that issues the query once
per request and reuses the cached result for every HTML hit; every in-loop
query uses the same `search_text` and the same `top = 10`, so both pipelines
produce the same response for every request. -/
theorem C9_hoisted_query_equivalent (idx_query : PyStr → Nat → List PdfIndexHit)
    (r : SearchRequest) (primary : List PrimaryHit) :
    search_response_ref idx_query r primary = search_response_hoisted idx_query r primary := by
  rfl

/-! ### Claim C5 — filename similarity -/

/-- Claim C5: `check_filename_match` returns true exactly when the Jaccard
overlap |intersection| / |union| of the two significant-term sets (normalized
tokens longer than 3 characters, after filename-comparison normalization) is
at least 1/2, and it returns false whenever the union is empty — in
particular on two empty names, with no division by zero. -/
theorem C5_similarity_iff_jaccard (a b : PyStr) :
    (check_filename_match a b = true ↔
      ((significant_terms (normalize_for_comparison a) ∪
          significant_terms (normalize_for_comparison b)) ≠ ∅ ∧
        ((significant_terms (normalize_for_comparison a) ∩
            significant_terms (normalize_for_comparison b)).card : ℚ) /
          ((significant_terms (normalize_for_comparison a) ∪
            significant_terms (normalize_for_comparison b)).card : ℚ) ≥ (1 : ℚ) / 2))
    ∧ ((significant_terms (normalize_for_comparison a) ∪
          significant_terms (normalize_for_comparison b)) = ∅ →
        check_filename_match a b = false) := by
  constructor
  · by_cases h : (significant_terms (normalize_for_comparison a) ∪
        significant_terms (normalize_for_comparison b)).card = 0
    · simp only [check_filename_match, h, if_true, if_pos]
      constructor
      · intro hf
        exact absurd hf (by simp)
      · intro hc
        exact absurd (Finset.card_eq_zero.mp h) hc.1
    · simp only [check_filename_match, h, if_false, if_neg, decide_eq_true_eq]
      constructor
      · intro hq
        exact ⟨fun he => h (by rw [he]; exact Finset.card_empty), hq⟩
      · intro hc
        exact hc.2
  · intro he
    simp [check_filename_match, he]

/-- Witness for C5: two empty names have an empty significant-term union and
are reported dissimilar. -/
theorem C5_witness : check_filename_match [] [] = false :=
  (C5_similarity_iff_jaccard [] []).2 (by decide)

/-- Bridge from the executable `isPrefixOf` to the `<+:` relation. -/
theorem isPrefixOf_true_iff (l₁ l₂ : PyStr) : l₁.isPrefixOf l₂ = true ↔ l₁ <+: l₂ :=
  List.isPrefixOf_iff_prefix

/-- A string with no occurrence of a nonempty pattern is left unchanged by the
fuelled replace worker. -/
theorem pyReplaceAux_no_occurrence (fuel : Nat) :
    ∀ (s pat rep : PyStr), s.length ≤ fuel → pat ≠ [] → ¬ pat <:+: s →
      pyReplaceAux fuel s pat rep = s := by
  induction fuel with
  | zero =>
    intro s pat rep hlen hpat hinf
    cases s with
    | nil => rfl
    | cons c rest => simp at hlen
  | succ n ih =>
    intro s pat rep hlen hpat hinf
    cases s with
    | nil => rfl
    | cons c rest =>
      rw [pyReplaceAux, if_neg]
      · rw [ih rest pat rep (by simpa using Nat.le_of_succ_le_succ hlen) hpat
          (fun h => hinf (List.infix_cons h))]
      · rintro ⟨hne, hpre⟩
        exact hinf ((isPrefixOf_true_iff pat (c :: rest)).mp hpre).isInfix

/-- `str.replace` is the identity when the (nonempty) pattern never occurs. -/
theorem pyReplace_no_occurrence (s pat rep : PyStr) (hpat : pat ≠ [])
    (hinf : ¬ pat <:+: s) : pyReplace s pat rep = s :=
  pyReplaceAux_no_occurrence s.length s pat rep (Nat.le_refl _) hpat hinf

/-- One fuelled step across a leading occurrence of the pattern. -/
theorem pyReplaceAux_leading (fuel : Nat) (pat t rep : PyStr) (hpat : pat ≠ [])
    (hlen : t.length ≤ fuel) (hinf : ¬ pat <:+: t) :
    pyReplaceAux (fuel + 1) (pat ++ t) pat rep = rep ++ t := by
  cases pat with
  | nil => exact absurd rfl hpat
  | cons pc prest =>
    show pyReplaceAux (fuel + 1) (pc :: (prest ++ t)) (pc :: prest) rep = rep ++ t
    rw [pyReplaceAux, if_pos]
    · have hd : (pc :: (prest ++ t)).drop (pc :: prest).length = t :=
        List.drop_left (pc :: prest) t
      rw [hd, pyReplaceAux_no_occurrence fuel t (pc :: prest) rep hlen hpat hinf]
    · refine ⟨hpat, ?_⟩
      rw [isPrefixOf_true_iff]
      exact ⟨t, rfl⟩

/-- When the (nonempty) pattern occurs only as the leading characters,
`str.replace` substitutes that one occurrence. -/
theorem pyReplace_leading (pat t rep : PyStr) (hpat : pat ≠ [])
    (hinf : ¬ pat <:+: t) : pyReplace (pat ++ t) pat rep = rep ++ t := by
  cases pat with
  | nil => exact absurd rfl hpat
  | cons pc prest =>
    rw [pyReplace]
    have hl : ((pc :: prest) ++ t).length = (prest.length + t.length) + 1 := by
      simp [List.length_append]
    rw [hl]
    exact pyReplaceAux_leading (prest.length + t.length) (pc :: prest) t rep hpat
      (by omega) hinf

/-! ### Claim C8 — filename-comparison normalization -/

/-- Claim C8 (amended): `normalize_for_comparison` URL-decodes its input twice
and then removes every occurrence of the literal, case-sensitive substring
`.pdf` — interior occurrences included, via Python `str.replace` — before the
generic normalization (lower-case, non-alphanumeric runs to spaces, collapse,
strip); when the decoded text contains no `.pdf` at all, the stripping step
passes it through unchanged. -/
theorem C8_normalize_strips_every_pdf (text : PyStr) :
    normalize_for_comparison text =
      pyStrip (joinSpace (wsSplit (collapseRuns (fun c => !(isLowerAlnum c)) ' '
        (toLowerStr (pyReplace (pyUnquote (pyUnquote text)) pdf_ext [])))))
    ∧ (¬ pdf_ext <:+: pyUnquote (pyUnquote text) →
        pyReplace (pyUnquote (pyUnquote text)) pdf_ext [] = pyUnquote (pyUnquote text)) := by
  constructor
  · rfl
  · intro h
    exact pyReplace_no_occurrence (pyUnquote (pyUnquote text)) pdf_ext [] (by decide) h

/-- Counterexample to claim C8 as stated: the claim says an interior `.pdf`
survives the extension-stripping step, but `text.replace('.pdf', '')` removes
it — `x.pdfy` (no trailing `.pdf`) becomes `xy` before generic normalization,
not `x.pdfy`. -/
theorem C8_counterexample :
    pyReplace (pyUnquote (pyUnquote (pys ("x.pdfy")))) pdf_ext [] = pys ("xy")
    ∧ pys ("xy") ≠ pys ("x.pdfy")
    ∧ normalize_for_comparison (pys ("x.pdfy")) = pys ("xy") := by
  refine ⟨by decide, by decide, by decide⟩

/-- Witness for C8: a name without any `.pdf` occurrence passes the stripping
step unchanged. -/
theorem C8_witness :
    pyReplace (pyUnquote (pyUnquote (pys ("notes.txt")))) pdf_ext [] =
      pyUnquote (pyUnquote (pys ("notes.txt"))) :=
  (C8_normalize_strips_every_pdf (pys ("notes.txt"))).2 (by decide)

/-! ### Claim C10 — blob-store URL rewriting -/

/-- Claim C10 (amended): in both modules' `search_single_index`, a result URL
that does not start with the blob-store head is exposed unchanged, and one
that starts with it has every occurrence of that head replaced by the public
site head — in particular, when the head does not reoccur in the remainder,
the exposed URL is exactly the public head followed by the remainder. -/
theorem C10_transform_url (url : PyStr) :
    (¬ blob_store_head <+: url → transform_url url = url)
    ∧ (blob_store_head <+: url → ¬ blob_store_head <:+: url.drop blob_store_head.length →
        transform_url url = public_site_head ++ url.drop blob_store_head.length) := by
  constructor
  · intro h
    rw [transform_url, if_neg]
    intro hb
    exact h ((isPrefixOf_true_iff blob_store_head url).mp hb)
  · intro hpre hinf
    obtain ⟨t, rfl⟩ := hpre
    have hd : (blob_store_head ++ t).drop blob_store_head.length = t :=
      List.drop_left blob_store_head t
    rw [hd] at hinf
    rw [hd, transform_url, if_pos]
    · exact pyReplace_leading blob_store_head t public_site_head (by decide) hinf
    · rw [isPrefixOf_true_iff]
      exact ⟨t, rfl⟩

set_option maxRecDepth 40000 in
/-- Counterexample to claim C10 as stated: on a URL that starts with the
blob-store head and contains it again, `str.replace` rewrites both
occurrences, while the claim (replace the leading head, pass the rest
through) predicts the second occurrence survives. -/
theorem C10_counterexample :
    transform_url (blob_store_head ++ blob_store_head) =
      public_site_head ++ public_site_head
    ∧ public_site_head ++ public_site_head ≠ public_site_head ++ blob_store_head := by
  refine ⟨by decide, by decide⟩

/-- Witness for C10: a non-blob-store URL passes through unchanged. -/
theorem C10_witness :
    transform_url (pys ("https://example.org/a.pdf")) = pys ("https://example.org/a.pdf") :=
  (C10_transform_url (pys ("https://example.org/a.pdf"))).1 (by decide)

/-! ### Claim C7 — context-extractor totality and snippet bound -/

/-- Stripping never lengthens a string. -/
theorem pyStrip_length_le (s : PyStr) : (pyStrip s).length ≤ s.length := by
  rw [pyStrip]
  calc (((s.dropWhile pyIsSpace).reverse.dropWhile pyIsSpace).reverse).length
      = ((s.dropWhile pyIsSpace).reverse.dropWhile pyIsSpace).length := by
        rw [List.length_reverse]
    _ ≤ (s.dropWhile pyIsSpace).reverse.length := (List.dropWhile_suffix pyIsSpace).length_le
    _ = (s.dropWhile pyIsSpace).length := by rw [List.length_reverse]
    _ ≤ s.length := (List.dropWhile_suffix pyIsSpace).length_le

/-- Wrapping a snippet in up to two ellipses adds at most six characters. -/
theorem ellipsis_wrap_length_le (snip : PyStr) (b1 b2 : Prop) [Decidable b1]
    [Decidable b2] (n : Nat) (h : snip.length ≤ n) :
    (if b2 then (if b1 then pys ("...") ++ snip else snip) ++ pys ("...")
     else (if b1 then pys ("...") ++ snip else snip)).length ≤ n + 6 := by
  have h3 : (pys ("...")).length = 3 := rfl
  by_cases hb1 : b1 <;> by_cases hb2 : b2 <;>
    simp only [hb1, hb2, if_true, if_false, ite_true, ite_false, List.length_append, h3] <;>
      omega

/-- The snippet window is bounded by the window size, the query length, and
at most six ellipsis characters. -/
theorem context_window_length_le (clean_text : PyStr) (position qlen context_chars : Nat) :
    (context_window clean_text position qlen context_chars).length ≤
      2 * context_chars + qlen + 6 := by
  have hstop : min clean_text.length (position + qlen + context_chars) -
      (position - context_chars) ≤ 2 * context_chars + qlen := by
    have h1 : min clean_text.length (position + qlen + context_chars) ≤
        position + qlen + context_chars := Nat.min_le_right _ _
    omega
  have hcore : (pyStrip ((clean_text.drop (position - context_chars)).take
      (min clean_text.length (position + qlen + context_chars) -
        (position - context_chars)))).length ≤ 2 * context_chars + qlen :=
    le_trans (pyStrip_length_le _) (le_trans (List.length_take_le _ _) hstop)
  exact ellipsis_wrap_length_le _ _ _ _ hcore

/-- Claim C7 (amended): both `get_search_context` variants return without
failing on every input and return the empty string for empty text or query;
the HTML variant's snippet length is bounded by `2*window + |query| + 6` for
every window size; the PDF variant obeys that bound whenever one of its query
words is found, but its no-match fallback returns up to 503 characters (the
first 500 plus an ellipsis), so its uniform bound is the maximum of the two. -/
theorem C7_context_bounds (text q : PyStr) (w : Nat) :
    (get_search_context [] q w = [] ∧ get_search_context text [] w = []
      ∧ pdf_get_search_context [] q w = [] ∧ pdf_get_search_context text [] w = [])
    ∧ (get_search_context text q w).length ≤ 2 * w + q.length + 6
    ∧ (pdf_get_search_context text q w).length ≤ max (2 * w + q.length + 6) 503 := by
  refine ⟨⟨by simp [get_search_context], by simp [get_search_context],
      by simp [pdf_get_search_context], by simp [pdf_get_search_context]⟩, ?_, ?_⟩
  · rw [get_search_context]
    by_cases hg : text.isEmpty || q.isEmpty
    · simp [hg]
    · simp only [hg, Bool.false_eq_true, if_false]
      cases hpos : (match pyFind (toLowerStr (clean_html_text text)) (toLowerStr q) with
        | some p => some p
        | none => first_long_word_hit (toLowerStr (clean_html_text text))
            (wsSplit (toLowerStr q))) with
      | none => simp
      | some p =>
        show (context_window (clean_html_text text) p q.length w).length ≤ _
        exact context_window_length_le (clean_html_text text) p q.length w
  · rw [pdf_get_search_context]
    by_cases hg : text.isEmpty || q.isEmpty
    · simp [hg]
    · simp only [hg, Bool.false_eq_true, if_false]
      cases hpos : first_term_hit (toLowerStr (clean_pdf_text text))
          (wsSplit (toLowerStr q)) with
      | none =>
        show ((clean_pdf_text text).take 500 ++ pys ("...")).length ≤ _
        have hlen : ((clean_pdf_text text).take 500 ++ pys ("...")).length ≤ 503 := by
          have h3 : (pys ("...")).length = 3 := rfl
          have hm : ((clean_pdf_text text).take 500).length ≤ 500 := List.length_take_le _ _
          rw [List.length_append, h3]
          omega
        exact le_trans hlen (Nat.le_max_right _ _)
      | some p =>
        show (context_window (clean_pdf_text text) p 0 w).length ≤ _
        refine le_trans (context_window_length_le (clean_pdf_text text) p 0 w) ?_
        exact le_trans (by omega) (Nat.le_max_left (2 * w + q.length + 6) 503)

/-- Counterexample to claim C7 as stated: with window 0 and the query `zzzz`,
the PDF variant's fallback returns `abcdefgh...` (11 characters), exceeding
the claimed bound `2*0 + 4 + 6 = 10`. -/
theorem C7_counterexample :
    ¬ ((pdf_get_search_context (pys ("abcdefgh")) (pys ("zzzz")) 0).length ≤
        2 * 0 + (pys ("zzzz")).length + 6) := by
  decide

/-! ### Claim C4 — match-then-fallback order of the two context extractors -/

/-- A list is an infix exactly when it is a prefix of some drop. -/
theorem infix_iff_exists_drop (l₁ l₂ : PyStr) : l₁ <:+: l₂ ↔ ∃ n, l₁ <+: l₂.drop n := by
  constructor
  · rintro ⟨u, v, rfl⟩
    refine ⟨u.length, v, ?_⟩
    rw [List.append_assoc, List.drop_left]
  · rintro ⟨n, t, ht⟩
    refine ⟨l₂.take n, t, ?_⟩
    rw [List.append_assoc, ht, List.take_append_drop]

/-- The scan worker returns `none` exactly when the pattern is a prefix of no
suffix of the text. -/
theorem pyFindAux_eq_none_iff (s : PyStr) : ∀ (pat : PyStr) (i : Nat),
    pyFindAux s pat i = none ↔ ∀ n, ¬ pat <+: s.drop n := by
  induction s with
  | nil =>
    intro pat i
    rw [pyFindAux]
    by_cases hp : pat.isPrefixOf [] = true
    · rw [if_pos hp]
      constructor
      · intro h; exact absurd h (by simp)
      · intro h; exact absurd ((isPrefixOf_true_iff _ _).mp hp) (by simpa using h 0)
    · rw [if_neg hp]
      constructor
      · intro _ n hpre
        rw [List.drop_nil] at hpre
        exact hp ((isPrefixOf_true_iff _ _).mpr hpre)
      · intro _; rfl
  | cons c rest ih =>
    intro pat i
    rw [pyFindAux]
    by_cases hp : pat.isPrefixOf (c :: rest) = true
    · rw [if_pos hp]
      constructor
      · intro h; exact absurd h (by simp)
      · intro h; exact absurd ((isPrefixOf_true_iff _ _).mp hp) (by simpa using h 0)
    · rw [if_neg hp]
      rw [ih pat (i + 1)]
      constructor
      · intro h n
        cases n with
        | zero =>
          simpa using fun hpre => hp ((isPrefixOf_true_iff _ _).mpr hpre)
        | succ m => simpa using h m
      · intro h n
        simpa using h (n + 1)

/-- `str.find` misses exactly when the pattern is not a substring. -/
theorem pyFind_eq_none_iff (s pat : PyStr) : pyFind s pat = none ↔ ¬ pat <:+: s := by
  rw [pyFind, pyFindAux_eq_none_iff]
  constructor
  · intro h hinf
    obtain ⟨n, hpre⟩ := (infix_iff_exists_drop pat s).mp hinf
    exact h n hpre
  · intro h n hpre
    exact h ((infix_iff_exists_drop pat s).mpr ⟨n, hpre⟩)

/-- `str.find` hits whenever the pattern is a substring. -/
theorem pyFind_isSome_of_occurs (s pat : PyStr) (h : pat <:+: s) :
    ∃ p, pyFind s pat = some p := by
  cases hf : pyFind s pat with
  | none => exact absurd h ((pyFind_eq_none_iff s pat).mp hf)
  | some p => exact ⟨p, rfl⟩

/-- The HTML module's word fallback misses when no query word longer than 3
characters occurs in the text. -/
theorem first_long_word_hit_eq_none (tl : PyStr) (ws : List PyStr)
    (h : ∀ w ∈ ws, 3 < w.length → ¬ w <:+: tl) : first_long_word_hit tl ws = none := by
  induction ws with
  | nil => rfl
  | cons w rest ih =>
    rw [first_long_word_hit]
    by_cases hw : 3 < w.length
    · rw [if_pos hw]
      have hf : pyFind tl w = none := (pyFind_eq_none_iff tl w).mpr (h w (by simp) hw)
      rw [hf]
      exact ih (fun x hx hlen => h x (by simp [hx]) hlen)
    · rw [if_neg hw]
      exact ih (fun x hx hlen => h x (by simp [hx]) hlen)

/-- The PDF module's term scan misses when no query word occurs in the text. -/
theorem first_term_hit_eq_none (tl : PyStr) (ws : List PyStr)
    (h : ∀ w ∈ ws, ¬ w <:+: tl) : first_term_hit tl ws = none := by
  induction ws with
  | nil => rfl
  | cons w rest ih =>
    rw [first_term_hit]
    have hf : pyFind tl w = none := (pyFind_eq_none_iff tl w).mpr (h w (by simp))
    rw [hf]
    exact ih (fun x hx => h x (by simp [hx]))

/-- The HTML module's word fallback hits at the first query word longer than
3 characters that occurs: every earlier long word missing, the scan returns
the found position of that word. -/
theorem first_long_word_hit_append (tl : PyStr) (ws₁ : List PyStr) (wrd : PyStr)
    (ws₂ : List PyStr) (hmiss : ∀ x ∈ ws₁, 3 < x.length → ¬ x <:+: tl)
    (hlen : 3 < wrd.length) (hocc : wrd <:+: tl) :
    ∃ p, pyFind tl wrd = some p ∧ first_long_word_hit tl (ws₁ ++ wrd :: ws₂) = some p := by
  induction ws₁ with
  | nil =>
    obtain ⟨p, hp⟩ := pyFind_isSome_of_occurs tl wrd hocc
    refine ⟨p, hp, ?_⟩
    rw [List.nil_append, first_long_word_hit, if_pos hlen, hp]
  | cons x rest ih =>
    obtain ⟨p, hp, hrec⟩ := ih (fun y hy hl => hmiss y (by simp [hy]) hl)
    refine ⟨p, hp, ?_⟩
    rw [List.cons_append, first_long_word_hit]
    by_cases hx : 3 < x.length
    · rw [if_pos hx]
      have hfx : pyFind tl x = none := (pyFind_eq_none_iff tl x).mpr (hmiss x (by simp) hx)
      rw [hfx]
      exact hrec
    · rw [if_neg hx]
      exact hrec

/-- The PDF module's term scan returns the found position of the first query
word that occurs, once every earlier word misses. -/
theorem first_term_hit_append (tl : PyStr) (ws₁ : List PyStr) (wrd : PyStr)
    (ws₂ : List PyStr) (hmiss : ∀ x ∈ ws₁, ¬ x <:+: tl) (hocc : wrd <:+: tl) :
    ∃ p, pyFind tl wrd = some p ∧ first_term_hit tl (ws₁ ++ wrd :: ws₂) = some p := by
  induction ws₁ with
  | nil =>
    obtain ⟨p, hp⟩ := pyFind_isSome_of_occurs tl wrd hocc
    refine ⟨p, hp, ?_⟩
    rw [List.nil_append, first_term_hit, hp]
  | cons x rest ih =>
    obtain ⟨p, hp, hrec⟩ := ih (fun y hy => hmiss y (by simp [hy]))
    refine ⟨p, hp, ?_⟩
    rw [List.cons_append, first_term_hit]
    have hfx : pyFind tl x = none := (pyFind_eq_none_iff tl x).mpr (hmiss x (by simp))
    rw [hfx]
    exact hrec

set_option maxHeartbeats 1000000 in
/-- Claim C4 (amended): the HTML variant first locates the whole query text
case-insensitively as a literal substring of its cleaned text and snippets
around that hit; only if the whole query is absent does it fall back to the
query's words longer than 3 characters, scanned in order — it snippets around
the first such word that occurs (the window still sized by the whole query's
length) — and if those also miss it returns the empty string.  The PDF
variant does not share this chain: it never searches the whole phrase and
applies no word-length filter, scanning every whitespace-separated query word
in order and snippeting around the first word that occurs; only when no word
at all occurs does it return the first 500 characters of the cleaned text
plus an ellipsis. -/
theorem C4_context_fallback_chain (text q : PyStr) (w : Nat)
    (ht : text ≠ []) (hq : q ≠ []) :
    (¬ toLowerStr q <:+: toLowerStr (clean_html_text text) →
      (∀ word ∈ wsSplit (toLowerStr q), 3 < word.length →
        ¬ word <:+: toLowerStr (clean_html_text text)) →
      get_search_context text q w = [])
    ∧ (toLowerStr q <:+: toLowerStr (clean_html_text text) →
      ∃ p, pyFind (toLowerStr (clean_html_text text)) (toLowerStr q) = some p ∧
        get_search_context text q w = context_window (clean_html_text text) p q.length w)
    ∧ ((∀ word ∈ wsSplit (toLowerStr q), ¬ word <:+: toLowerStr (clean_pdf_text text)) →
      pdf_get_search_context text q w = (clean_pdf_text text).take 500 ++ pys ("..."))
    ∧ (∀ ws₁ wrd ws₂, wsSplit (toLowerStr q) = ws₁ ++ wrd :: ws₂ →
      (∀ x ∈ ws₁, 3 < x.length → ¬ x <:+: toLowerStr (clean_html_text text)) →
      3 < wrd.length → wrd <:+: toLowerStr (clean_html_text text) →
      ¬ toLowerStr q <:+: toLowerStr (clean_html_text text) →
      ∃ p, pyFind (toLowerStr (clean_html_text text)) wrd = some p ∧
        get_search_context text q w = context_window (clean_html_text text) p q.length w)
    ∧ (∀ ws₁ wrd ws₂, wsSplit (toLowerStr q) = ws₁ ++ wrd :: ws₂ →
      (∀ x ∈ ws₁, ¬ x <:+: toLowerStr (clean_pdf_text text)) →
      wrd <:+: toLowerStr (clean_pdf_text text) →
      ∃ p, pyFind (toLowerStr (clean_pdf_text text)) wrd = some p ∧
        pdf_get_search_context text q w = context_window (clean_pdf_text text) p 0 w) := by
  have hte : text.isEmpty = false := by
    cases text with
    | nil => exact absurd rfl ht
    | cons c rest => rfl
  have hqe : q.isEmpty = false := by
    cases q with
    | nil => exact absurd rfl hq
    | cons c rest => rfl
  refine ⟨?_, ?_, ?_, ?_, ?_⟩
  · intro h1 h2
    have hf : pyFind (toLowerStr (clean_html_text text)) (toLowerStr q) = none :=
      (pyFind_eq_none_iff _ _).mpr h1
    have hw : first_long_word_hit (toLowerStr (clean_html_text text))
        (wsSplit (toLowerStr q)) = none := first_long_word_hit_eq_none _ _ h2
    rw [get_search_context, hte, hqe, hf, hw]
    rfl
  · intro h1
    obtain ⟨p, hp⟩ := pyFind_isSome_of_occurs _ _ h1
    refine ⟨p, hp, ?_⟩
    rw [get_search_context, hte, hqe, hp]
    rfl
  · intro h1
    have hw : first_term_hit (toLowerStr (clean_pdf_text text))
        (wsSplit (toLowerStr q)) = none := first_term_hit_eq_none _ _ h1
    rw [pdf_get_search_context, hte, hqe, hw]
    rfl
  · intro ws₁ wrd ws₂ hsplit hmiss hlen hocc hphrase
    have hf : pyFind (toLowerStr (clean_html_text text)) (toLowerStr q) = none :=
      (pyFind_eq_none_iff _ _).mpr hphrase
    obtain ⟨p, hp, hfw⟩ := first_long_word_hit_append (toLowerStr (clean_html_text text))
      ws₁ wrd ws₂ hmiss hlen hocc
    refine ⟨p, hp, ?_⟩
    rw [get_search_context, hte, hqe, hf]
    rw [hsplit]
    rw [hfw]
    rfl
  · intro ws₁ wrd ws₂ hsplit hmiss hocc
    obtain ⟨p, hp, hfw⟩ := first_term_hit_append (toLowerStr (clean_pdf_text text))
      ws₁ wrd ws₂ hmiss hocc
    refine ⟨p, hp, ?_⟩
    rw [pdf_get_search_context, hte, hqe]
    rw [hsplit]
    rw [hfw]
    rfl

/-- Counterexample to claim C4 as stated: for text `a dog` and query `a cat`
the whole query is absent from the cleaned text and the query has no word
longer than 3 characters, so by the claim the PDF variant should return its
500-character-plus-ellipsis fallback; instead it finds the one-character word
`a` and returns the snippet `a dog`. -/
theorem C4_counterexample :
    pdf_get_search_context (pys ("a dog")) (pys ("a cat")) 300 = pys ("a dog")
    ∧ ¬ toLowerStr (pys ("a cat")) <:+: toLowerStr (clean_pdf_text (pys ("a dog")))
    ∧ (wsSplit (toLowerStr (pys ("a cat")))).all (fun word => word.length ≤ 3) = true
    ∧ pys ("a dog") ≠ (clean_pdf_text (pys ("a dog"))).take 500 ++ pys ("...") := by
  refine ⟨by decide, by decide, by decide, by decide⟩

/-- Witness for C4, exercising three branches of the chain: the HTML variant
returns empty for query `zebra` (absent phrase, its only long word absent);
for query `zz world` (absent phrase, short word `zz` first, long word `world`
found at offset 6) it snippets at the word hit; and the PDF variant for query
`zz dogs` snippets at the first found word `dogs` (offset 9). -/
theorem C4_witness :
    get_search_context (pys ("<p>hello world</p>")) (pys ("zebra")) 5 = []
    ∧ get_search_context (pys ("<p>hello world</p>")) (pys ("zz world")) 5 =
        context_window (clean_html_text (pys ("<p>hello world</p>"))) 6
          (pys ("zz world")).length 5
    ∧ pdf_get_search_context (pys ("<b>cats and dogs</b>")) (pys ("zz dogs")) 300 =
        context_window (clean_pdf_text (pys ("<b>cats and dogs</b>"))) 9 0 300 := by
  refine ⟨?_, ?_, ?_⟩
  · exact (C4_context_fallback_chain (pys ("<p>hello world</p>")) (pys ("zebra")) 5
      (by decide) (by decide)).1 (by decide) (by decide)
  · obtain ⟨p, hp, hres⟩ := (C4_context_fallback_chain (pys ("<p>hello world</p>"))
        (pys ("zz world")) 5 (by decide) (by decide)).2.2.2.1
      [pys ("zz")] (pys ("world")) [] (by decide) (by decide) (by decide) (by decide)
      (by decide)
    have h6 : pyFind (toLowerStr (clean_html_text (pys ("<p>hello world</p>"))))
        (pys ("world")) = some 6 := by decide
    rw [h6] at hp
    rw [Option.some.inj hp]
    exact hres
  · obtain ⟨p, hp, hres⟩ := (C4_context_fallback_chain (pys ("<b>cats and dogs</b>"))
        (pys ("zz dogs")) 300 (by decide) (by decide)).2.2.2.2
      [pys ("zz")] (pys ("dogs")) [] (by decide) (by decide) (by decide)
    have h9 : pyFind (toLowerStr (clean_pdf_text (pys ("<b>cats and dogs</b>"))))
        (pys ("dogs")) = some 9 := by decide
    rw [h9] at hp
    rw [Option.some.inj hp]
    exact hres

/-! ### Claims C1 and C2 — per-result error isolation and the inclusion rule -/

/-- A processed result that passes the inclusion test is in the results list. -/
theorem mem_search_results_of_truthy (search_text : PyStr) (primary : List PrimaryHit)
    (sub_steps : Nat → CrossStep) (j : Nat) (hit : PrimaryHit)
    (hget : primary[j]? = some hit)
    (htr : result_truthy (apply_cross_step search_text j hit (sub_steps j)) = true) :
    apply_cross_step search_text j hit (sub_steps j) ∈
      search_results_list search_text primary sub_steps := by
  rw [search_results_list]
  refine List.mem_filter.mpr ⟨?_, htr⟩
  refine List.mem_map.mpr ⟨(j, hit), ?_, rfl⟩
  exact List.mk_mem_enum_iff_getElem?.mpr hget

/-- Python truthiness of `content or url or pdf_urls`, spelled out. -/
theorem result_truthy_iff (fr : FilteredResult) :
    result_truthy fr = true ↔
      (fr.content ≠ [] ∨ (∃ u, fr.url = some u ∧ u ≠ []) ∨ fr.pdf_urls ≠ []) := by
  cases hu : fr.url with
  | none => simp [result_truthy, pyTruthyOptStr, hu]
  | some u => simp [result_truthy, pyTruthyOptStr, hu, or_assoc]

/-- Claim C2: an HTML hit's processed result is included in the HTTP
response's results exactly when it has a non-empty content snippet, or a
resolved (non-null, non-empty) first embedded URL, or at least one PDF URL
surviving policy filtering; a result with none of these is dropped silently
(the filter simply omits it). -/
theorem C2_inclusion_rule (r : SearchRequest) (primary : List PrimaryHit)
    (sub_steps : Nat → CrossStep) (i : Nat) (hit : PrimaryHit)
    (hget : primary[i]? = some hit) :
    (apply_cross_step r.search_text i hit (sub_steps i) ∈
        (search_response r primary sub_steps).results ↔
      ((apply_cross_step r.search_text i hit (sub_steps i)).content ≠ []
        ∨ (∃ u, (apply_cross_step r.search_text i hit (sub_steps i)).url = some u ∧ u ≠ [])
        ∨ (apply_cross_step r.search_text i hit (sub_steps i)).pdf_urls ≠ [])) := by
  have hres : (search_response r primary sub_steps).results =
      search_results_list r.search_text primary sub_steps := rfl
  rw [hres]
  constructor
  · intro hmem
    rw [search_results_list] at hmem
    exact (result_truthy_iff _).mp (List.mem_filter.mp hmem).2
  · intro hspec
    exact mem_search_results_of_truthy r.search_text primary sub_steps i hit hget
      ((result_truthy_iff _).mpr hspec)

/-- Claim C1: during cross-referencing of an HTML hit (only the first 10 hits
of a non-empty-text search attempt it), a failing sub-step sets that result's
`found_in_pdf` marker to `"Error checking PDF"` and processing continues — the
handler still returns the 200 response, and every other hit is still
processed and included whenever it passes the inclusion rule; a
cross-referencing failure never fails the whole search request. -/
theorem C1_crossref_error_isolated (r : SearchRequest) (primary : List PrimaryHit)
    (sub_steps : Nat → CrossStep) (i : Nat) (hit : PrimaryHit) (e : PyStr)
    (hst : r.search_text ≠ []) (hget : primary[i]? = some hit) (hi : i < 10)
    (herr : sub_steps i (process_result r.search_text hit).pdf_urls = Except.error e) :
    (apply_cross_step r.search_text i hit (sub_steps i)).found_in_pdf = error_checking_pdf
    ∧ search_function_model r primary sub_steps =
        HttpOutcome.success (search_response r primary sub_steps) 200
    ∧ ∀ j hit2, primary[j]? = some hit2 →
        result_truthy (apply_cross_step r.search_text j hit2 (sub_steps j)) = true →
        apply_cross_step r.search_text j hit2 (sub_steps j) ∈
          (search_response r primary sub_steps).results := by
  refine ⟨?_, rfl, ?_⟩
  · rw [apply_cross_step, if_pos ⟨hi, hst⟩, herr]
  · intro j hit2 hg ht2
    exact mem_search_results_of_truthy r.search_text primary sub_steps j hit2 hg ht2

/-- Witness for C1: with a one-hit index and a sub-step that raises, the
first result carries the error marker. -/
theorem C1_witness :
    (apply_cross_step req_x.search_text 0 hit_pdf_only (sub_steps_fail 0)).found_in_pdf =
      error_checking_pdf :=
  (C1_crossref_error_isolated req_x [hit_pdf_only] sub_steps_fail 0 hit_pdf_only
    (pys ("boom")) (by decide) rfl (by decide) rfl).1

/-- Witness for C2: a hit whose snippet is non-empty is included in the
response. -/
theorem C2_witness :
    apply_cross_step req_x.search_text 0 hit_with_x (sub_steps_ok 0) ∈
      (search_response req_x [hit_with_x] sub_steps_ok).results :=
  (C2_inclusion_rule req_x [hit_with_x] sub_steps_ok 0 hit_with_x rfl).mpr
    (Or.inl (by decide))
